import Mathlib

/-!
Verification of the `storage` package of comr8/30.8.1-HW-02: a Postgres-backed
task repository (`pkg/storage/storage.go`).  The database state is embedded as
a `Storage` value holding the `tasks` table (plus the external `labels` and
`tasks_labels` tables), parameterised SQL statements are embedded as Lean
functions over that state, and the pgx driver behaviour (query errors, scan
errors, deferred `rows.Err()` errors) is embedded as an explicit `Fault`
parameter, `Fault.healthy` being a fault-free round trip.
-/

namespace TaskStorage

/-- The `Task` struct of `storage.go` (field names as in the Go source). -/
structure Task where
  ID : Int
  Opened : Int
  Closed : Int
  AuthorID : Int
  AssignedID : Int
  Title : String
  Content : String
deriving Repr, DecidableEq

/-- A row of the external `labels` table (`id, name`). -/
structure Label where
  ID : Int
  name : String
deriving Repr, DecidableEq

/-- The database state behind the pool handle held by the Go `Storage` struct:
the `tasks` table, the external `labels` and `tasks_labels` tables, the next
store-generated id, and the store clock used for the `opened` default. -/
structure Storage where
  tasks : List Task
  labels : List Label
  tasksLabels : List (Int × Int)
  nextID : Int
  now : Int
deriving Repr, DecidableEq

/-- Well-formed database: rows sit in ascending id order (ids are unique,
store-generated in increasing order), every id is below the generator, and the
generator starts at 1 so that no row ever has id 0. -/
def Storage.WF (s : Storage) : Prop :=
  s.tasks.Sorted (fun a b => a.ID < b.ID) ∧ (∀ t ∈ s.tasks, t.ID < s.nextID) ∧ 1 ≤ s.nextID

/-- Errors surfaced by pgx to the Go code: `store` covers query execution /
scan / connectivity failures (the spec's StoreError), `noRows` is
`pgx.ErrNoRows` from `QueryRow(...).Scan` on zero rows (the spec's
NotFoundError). -/
inductive Err
  | store (msg : String)
  | noRows
deriving Repr, DecidableEq

/-- Driver behaviour for one query round trip.  `healthy` is a fault-free
execution; `queryErr` makes `db.Query` itself fail; `scanErr n` makes
`rows.Scan` fail on the n-th delivered row; `rowsErr n` ends iteration after
n rows with a deferred error reported by `rows.Err()`. -/
inductive Fault
  | healthy
  | queryErr (msg : String)
  | scanErr (n : Nat) (msg : String)
  | rowsErr (n : Nat) (msg : String)
deriving Repr, DecidableEq

/-- The `for rows.Next() { rows.Scan(...) }` loop shared by `Tasks`,
`TaskByAuthor` and `TaskByLabel`: each stream element is a successful scan or
a scan error (on which the Go code does `return nil, err`); after the stream
is exhausted the accumulated slice is returned together with `rows.Err()`
(`return tasks, rows.Err()`).  `none` in the first component is Go's nil
slice. -/
def scanLoop (acc : List Task) : List (Except Err Task) → Option Err → Option (List Task) × Option Err
  | [], deferred => (some acc, deferred)
  | Except.error e :: _, _ => (none, some e)
  | Except.ok t :: rest, deferred => scanLoop (acc ++ [t]) rest deferred

/-- Parenthesis balance check over the characters of a SQL text: the running
count never goes negative and ends at zero.  Postgres rejects a statement
whose grouping is unbalanced with a syntax error before executing it. -/
def parenCount : List Char → Int → Bool
  | [], n => n == 0
  | c :: rest, n =>
    if c = '(' then parenCount rest (n + 1)
    else if c = ')' then decide (0 < n) && parenCount rest (n - 1)
    else parenCount rest n

/-- A SQL text is well grouped when its parentheses balance. -/
def parenBalanced (sql : String) : Bool := parenCount sql.data 0

/-- The error pgx reports for a malformed statement. -/
def malformedStmtErr : Err := Err.store "ERROR: sql parse failure at or near ; (SQLSTATE 42601)"

/-- One `db.Query` round trip followed by the scan loop: a malformed statement
fails at `db.Query` (the Go code then does `return nil, err`); otherwise the
driver delivers the result rows subject to the injected fault and the scan
loop of the Go source consumes them. -/
def execQuery (sql : String) (results : List Task) (fx : Fault) : Option (List Task) × Option Err :=
  if parenBalanced sql = false then (none, some malformedStmtErr)
  else
    match fx with
    | Fault.healthy => scanLoop [] (results.map Except.ok) none
    | Fault.queryErr m => (none, some (Err.store m))
    | Fault.scanErr n m => scanLoop [] ((results.take n).map Except.ok ++ [Except.error (Err.store m)]) none
    | Fault.rowsErr n m => scanLoop [] ((results.take n).map Except.ok) (some (Err.store m))

/-- `ORDER BY id` (ascending). -/
def sqlOrderByID (l : List Task) : List Task :=
  List.insertionSort (fun a b => a.ID ≤ b.ID) l

/-- The WHERE clause of `Tasks`:
`($1 = 0 OR id = $1) AND ($2 = 0 OR author_id = $2)`. -/
def tasksWhere (taskID authorID : Int) (t : Task) : Bool :=
  (taskID == 0 || t.ID == taskID) && (authorID == 0 || t.AuthorID == authorID)

/-- The SQL text of `Tasks` (as in the Go source). -/
def tasksSQL : String :=
  "SELECT id, opened, closed, author_id, assigned_id, title, content FROM tasks WHERE ($1 = 0 OR id = $1) AND ($2 = 0 OR author_id = $2) ORDER BY id;"

/-- `func (s *Storage) Tasks(taskID, authorID int) ([]Task, error)`. -/
def Tasks (s : Storage) (fx : Fault) (taskID authorID : Int) : Option (List Task) × Option Err :=
  execQuery tasksSQL (sqlOrderByID (s.tasks.filter (tasksWhere taskID authorID))) fx

/-- The row the store materialises for
`INSERT INTO tasks (title, content) VALUES ($1, $2) RETURNING id;`:
`id` and `opened` are store-generated, the remaining columns take their
defaults. -/
def insertedTask (s : Storage) (title content : String) : Task :=
  { ID := s.nextID, Opened := s.now, Closed := 0, AuthorID := 0, AssignedID := 0,
    Title := title, Content := content }

/-- `func (s *Storage) NewTask(t Task) (int, error)`: inserts `t.Title` and
`t.Content`, scans the returned id.  `conn = some m` is a connectivity
failure surfacing from `QueryRow(...).Scan`. -/
def NewTask (s : Storage) (conn : Option String) (t : Task) : (Except Err Int) × Storage :=
  match conn with
  | some m => (Except.error (Err.store m), s)
  | none =>
    let r := insertedTask s t.Title t.Content
    (Except.ok r.ID,
     { s with tasks := s.tasks ++ [r], nextID := s.nextID + 1 })

/-- The WHERE clause of `TaskByAuthor`: `(author_id = $1)`. -/
def taskByAuthorWhere (authorID : Int) (t : Task) : Bool :=
  t.AuthorID == authorID

/-- The SQL text of `TaskByAuthor` (as in the Go source). -/
def taskByAuthorSQL : String :=
  "SELECT id, opened, closed, author_id, assigned_id, title, content FROM tasks WHERE (author_id = $1) ORDER BY id;"

/-- `func (s *Storage) TaskByAuthor(authorID int) ([]Task, error)`. -/
def TaskByAuthor (s : Storage) (fx : Fault) (authorID : Int) : Option (List Task) × Option Err :=
  execQuery taskByAuthorSQL (sqlOrderByID (s.tasks.filter (taskByAuthorWhere authorID))) fx

/-- The SQL text of `TaskByLabel`, verbatim from the Go source: the
parenthesis opened after `IN` is never closed before `ORDER BY`. -/
def taskByLabelSQL : String :=
  "SELECT id, opened, closed, author_id, assigned_id, title, content FROM tasks WHERE id IN (select task_id from tasks_labels where label_id in (select id from labels where name = $1) ORDER BY id;"

/-- Modelled from the spec: the intended row set of `TaskByLabel` — the tasks
joined through `tasks_labels` whose label name matches the argument exactly,
ordered by ascending id.  This is what the label query would return were its
grouping repaired; it is compared against the code's behaviour, not taken
from the source. -/
def specTaskByLabelRows (s : Storage) (name : String) : List Task :=
  sqlOrderByID (s.tasks.filter (fun t =>
    s.tasksLabels.any (fun p =>
      p.1 == t.ID && s.labels.any (fun lb => lb.ID == p.2 && lb.name == name))))

/-- `func (s *Storage) TaskByLabel(labelName string) ([]Task, error)`: runs
the (malformed) label query and the shared scan loop. -/
def TaskByLabel (s : Storage) (fx : Fault) (labelName : String) : Option (List Task) × Option Err :=
  execQuery taskByLabelSQL (specTaskByLabelRows s labelName) fx

/-- The SET clause of `UpdateTask`: overwrite `assigned_id`, `closed`,
`content`, `title` of row `r` with the values of `taskData`. -/
def applyUpdate (taskData r : Task) : Task :=
  { r with AssignedID := taskData.AssignedID, Closed := taskData.Closed,
           Content := taskData.Content, Title := taskData.Title }

/-- `func (s *Storage) UpdateTask(taskData Task) (Task, error)`:
`UPDATE tasks SET ... WHERE id = $5 RETURNING ...` through
`QueryRow(...).Scan`; zero matched rows make `Scan` fail with
`pgx.ErrNoRows`.  `conn = some m` is a connectivity failure. -/
def UpdateTask (s : Storage) (conn : Option String) (taskData : Task) : (Except Err Task) × Storage :=
  match conn with
  | some m => (Except.error (Err.store m), s)
  | none =>
    let newTasks := s.tasks.map (fun r => if r.ID == taskData.ID then applyUpdate taskData r else r)
    match (s.tasks.filter (fun r => r.ID == taskData.ID)).map (applyUpdate taskData) with
    | [] => (Except.error Err.noRows, { s with tasks := newTasks })
    | r :: _ => (Except.ok r, { s with tasks := newTasks })

/-- `func (s *Storage) DeleteTask(id int) error`:
`DELETE FROM tasks WHERE id = $1;`; only the `db.Query` error (connectivity)
is ever returned, a zero row count is not inspected. -/
def DeleteTask (s : Storage) (conn : Option String) (id : Int) : Option Err × Storage :=
  match conn with
  | some m => (some (Err.store m), s)
  | none => (none, { s with tasks := s.tasks.filter (fun r => !(r.ID == id)) })

/-! Fixtures used by the concrete witnesses and counterexamples. -/

/-- A concrete stored task (author 1, labelled "bug" in `wDB`). -/
def wTask1 : Task :=
  { ID := 1, Opened := 10, Closed := 0, AuthorID := 1, AssignedID := 0, Title := "a", Content := "x" }

/-- A second concrete stored task (author 2, unlabelled). -/
def wTask2 : Task :=
  { ID := 2, Opened := 11, Closed := 5, AuthorID := 2, AssignedID := 3, Title := "b", Content := "y" }

/-- A concrete update payload targeting id 1. -/
def wUpd : Task :=
  { ID := 1, Opened := 99, Closed := 7, AuthorID := 42, AssignedID := 9, Title := "n", Content := "z" }

/-- A concrete well-formed database holding `wTask1` and `wTask2`. -/
def wDB : Storage :=
  { tasks := [wTask1, wTask2], labels := [{ ID := 7, name := "bug" }],
    tasksLabels := [(1, 7)], nextID := 3, now := 20 }

set_option maxRecDepth 8000

/-! Helper lemmas. -/

lemma tasksSQL_balanced : parenBalanced tasksSQL = true := by decide

lemma taskByAuthorSQL_balanced : parenBalanced taskByAuthorSQL = true := by decide

lemma taskByLabelSQL_unbalanced : parenBalanced taskByLabelSQL = false := by decide

lemma scanLoop_ok (l acc : List Task) (d : Option Err) :
    scanLoop acc (l.map Except.ok) d = (some (acc ++ l), d) := by
  induction l generalizing acc with
  | nil => simp [scanLoop]
  | cons t rest ih => simp [scanLoop, ih]

lemma execQuery_healthy {sql : String} (hsql : parenBalanced sql = true) (results : List Task) :
    execQuery sql results Fault.healthy = (some results, none) := by
  simp [execQuery, hsql, scanLoop_ok]

lemma execQuery_rowsErr {sql : String} (hsql : parenBalanced sql = true)
    (results : List Task) (n : Nat) (m : String) :
    execQuery sql results (Fault.rowsErr n m) = (some (results.take n), some (Err.store m)) := by
  have h2 := scanLoop_ok (results.take n) [] (some (Err.store m))
  simpa [execQuery, hsql] using h2

lemma Storage.WF.orderByID_filter {s : Storage} (h : s.WF) (p : Task → Bool) :
    sqlOrderByID (s.tasks.filter p) = s.tasks.filter p := by
  apply List.Sorted.insertionSort_eq
  exact List.Sorted.filter p (List.Pairwise.imp (fun hab => le_of_lt hab) h.1)

lemma Storage.WF.sorted_filter {s : Storage} (h : s.WF) (p : Task → Bool) :
    (s.tasks.filter p).Sorted (fun a b => a.ID < b.ID) :=
  List.Sorted.filter p h.1

lemma filter_eq_single_of_sorted {l : List Task}
    (hs : l.Sorted (fun a b => a.ID < b.ID)) {r : Task} (hr : r ∈ l) {x : Int} (hx : r.ID = x) :
    l.filter (fun q => q.ID == x) = [r] := by
  induction l with
  | nil => cases hr
  | cons a l ih =>
    rw [List.sorted_cons] at hs
    rcases List.mem_cons.mp hr with h1 | h1
    · subst h1
      have hnil : l.filter (fun q => q.ID == x) = [] := by
        rw [List.filter_eq_nil_iff]
        intro q hq
        have := hs.1 q hq
        simp only [beq_iff_eq]
        omega
      simp [List.filter_cons, hx, hnil]
    · have hax : (a.ID == x) = false := by
        have := hs.1 r h1
        simp only [beq_eq_false_iff_ne, ne_eq]
        omega
      simp [List.filter_cons, hax, ih hs.2 h1]

lemma filter_id_eq_nil {l : List Task} {x : Int} (h : ∀ r ∈ l, r.ID ≠ x) :
    l.filter (fun q => q.ID == x) = [] := by
  rw [List.filter_eq_nil_iff]
  intro q hq
  simpa using h q hq

lemma map_update_id {l : List Task} {x : Int} (h : ∀ r ∈ l, r.ID ≠ x) (f : Task → Task) :
    l.map (fun q => if q.ID == x then f q else q) = l := by
  induction l with
  | nil => rfl
  | cons a l ih =>
    have hax : a.ID ≠ x := h a (List.mem_cons_self a l)
    simp only [List.map_cons]
    rw [if_neg (by simpa using hax), ih (fun r hr => h r (List.mem_cons_of_mem a hr))]

/-! Claim theorems. -/

/-- C1: on a healthy connection, `Tasks(taskID, authorID)` returns exactly
the stored tasks matching the composite filter — the id filter is ignored
when `taskID = 0`, the author filter is ignored when `authorID = 0`, and all
tasks are returned when both are 0 — ordered by ascending id, and it returns
an empty sequence with no error when no row matches. -/
theorem Tasks_filter_spec (s : Storage) (h : s.WF) (taskID authorID : Int) :
    Tasks s Fault.healthy taskID authorID =
      (some (s.tasks.filter (tasksWhere taskID authorID)), none) ∧
    (∀ t, t ∈ s.tasks.filter (tasksWhere taskID authorID) ↔
      t ∈ s.tasks ∧ (taskID = 0 ∨ t.ID = taskID) ∧ (authorID = 0 ∨ t.AuthorID = authorID)) ∧
    (s.tasks.filter (tasksWhere taskID authorID)).Sorted (fun a b => a.ID < b.ID) ∧
    ((∀ t ∈ s.tasks, ¬((taskID = 0 ∨ t.ID = taskID) ∧ (authorID = 0 ∨ t.AuthorID = authorID))) →
      Tasks s Fault.healthy taskID authorID = (some [], none)) := by
  have hmain : Tasks s Fault.healthy taskID authorID =
      (some (s.tasks.filter (tasksWhere taskID authorID)), none) := by
    simp only [Tasks]
    rw [h.orderByID_filter, execQuery_healthy tasksSQL_balanced]
  refine ⟨hmain, ?_, h.sorted_filter _, ?_⟩
  · intro t
    simp [List.mem_filter, tasksWhere]
  · intro hnone
    have hnil : s.tasks.filter (tasksWhere taskID authorID) = [] := by
      rw [List.filter_eq_nil_iff]
      intro t ht
      simpa [tasksWhere] using hnone t ht
    rw [hmain, hnil]

/-- C1 witness: the claim theorem applied at a concrete database and filter. -/
theorem Tasks_filter_spec_witness :
    Tasks wDB Fault.healthy 1 0 =
      (some (wDB.tasks.filter (tasksWhere 1 0)), none) ∧
    (∀ t, t ∈ wDB.tasks.filter (tasksWhere 1 0) ↔
      t ∈ wDB.tasks ∧ ((1 : Int) = 0 ∨ t.ID = 1) ∧ ((0 : Int) = 0 ∨ t.AuthorID = 0)) ∧
    (wDB.tasks.filter (tasksWhere 1 0)).Sorted (fun a b => a.ID < b.ID) ∧
    ((∀ t ∈ wDB.tasks, ¬(((1 : Int) = 0 ∨ t.ID = 1) ∧ ((0 : Int) = 0 ∨ t.AuthorID = 0))) →
      Tasks wDB Fault.healthy 1 0 = (some [], none)) :=
  Tasks_filter_spec wDB ⟨by decide, by decide, by decide⟩ 1 0

/-- C5: the label-filtering query of `TaskByLabel` is malformed (its grouping
is unbalanced), and under that hypothesis `TaskByLabel` fails with a
StoreError for every database, driver behaviour and label name — it never
silently returns a result list. -/
theorem TaskByLabel_fails_loudly (s : Storage) (fx : Fault) (name : String)
    (h : parenBalanced taskByLabelSQL = false) :
    TaskByLabel s fx name = (none, some malformedStmtErr) := by
  simp [TaskByLabel, execQuery, h]

/-- C5 witness: the grouping really is unbalanced, and a concrete call fails
with the StoreError. -/
theorem TaskByLabel_fails_loudly_witness :
    parenBalanced taskByLabelSQL = false ∧
    TaskByLabel wDB Fault.healthy "bug" = (none, some malformedStmtErr) :=
  ⟨by decide, TaskByLabel_fails_loudly wDB Fault.healthy "bug" (by decide)⟩

/-- C6: `DeleteTask(id)` removes exactly the stored row with that id and
returns no error even when no row matched (deleting a missing row is a
no-op); it fails only with a StoreError on connectivity failure. -/
theorem DeleteTask_spec (s : Storage) (i : Int) :
    (DeleteTask s none i).1 = none ∧
    (∀ r, r ∈ (DeleteTask s none i).2.tasks ↔ r ∈ s.tasks ∧ r.ID ≠ i) ∧
    ((∀ r ∈ s.tasks, r.ID ≠ i) → DeleteTask s none i = (none, s)) ∧
    (∀ m, DeleteTask s (some m) i = (some (Err.store m), s)) := by
  refine ⟨rfl, ?_, ?_, fun m => rfl⟩
  · intro r
    simp [DeleteTask, List.mem_filter]
  · intro hnone
    have h1 : s.tasks.filter (fun r => !(r.ID == i)) = s.tasks := by
      rw [List.filter_eq_self]
      intro r hr
      simpa using hnone r hr
    show (none, { s with tasks := s.tasks.filter (fun r => !(r.ID == i)) }) = (none, s)
    rw [h1]

/-- C6 witness: the claim theorem applied to a concrete database and a
missing id. -/
theorem DeleteTask_spec_witness :
    (DeleteTask wDB none 99).1 = none ∧
    (∀ r, r ∈ (DeleteTask wDB none 99).2.tasks ↔ r ∈ wDB.tasks ∧ r.ID ≠ 99) ∧
    ((∀ r ∈ wDB.tasks, r.ID ≠ 99) → DeleteTask wDB none 99 = (none, wDB)) ∧
    (∀ m, DeleteTask wDB (some m) 99 = (some (Err.store m), wDB)) :=
  DeleteTask_spec wDB 99

lemma mem_id_unique {l : List Task} (hs : l.Sorted (fun a b => a.ID < b.ID))
    {r q : Task} (hr : r ∈ l) (hq : q ∈ l) (hid : q.ID = r.ID) : q = r := by
  have h1 := filter_eq_single_of_sorted hs hr (rfl : r.ID = r.ID)
  have h2 : q ∈ l.filter (fun a => a.ID == r.ID) :=
    List.mem_filter.mpr ⟨hq, by simp [hid]⟩
  rw [h1] at h2
  simpa using h2

/-- C2: on a healthy connection, `UpdateTask(t)` overwrites `assignedID`,
`closed`, `content`, `title` of the stored row whose id equals `t.ID` and
returns the full updated row; when no stored row has that id it fails with
the NotFoundError (`pgx.ErrNoRows` from scanning zero rows); on connectivity
failure it fails with a StoreError. -/
theorem UpdateTask_spec (s : Storage) (h : s.WF) (t : Task) :
    (∀ r ∈ s.tasks, r.ID = t.ID →
      UpdateTask s none t =
        (Except.ok (applyUpdate t r),
         { s with tasks := s.tasks.map (fun q => if q.ID == t.ID then applyUpdate t q else q) })) ∧
    ((∀ r ∈ s.tasks, r.ID ≠ t.ID) → (UpdateTask s none t).1 = Except.error Err.noRows) ∧
    (∀ m, (UpdateTask s (some m) t).1 = Except.error (Err.store m)) := by
  refine ⟨?_, ?_, fun m => rfl⟩
  · intro r hr hid
    have hf := filter_eq_single_of_sorted h.1 hr hid
    simp only [UpdateTask, hf, List.map_cons, List.map_nil]
  · intro hnone
    have hf := filter_id_eq_nil hnone
    simp only [UpdateTask, hf, List.map_nil]

/-- C2 witness: the claim theorem applied at a concrete database and update
payload. -/
theorem UpdateTask_spec_witness :
    (∀ r ∈ wDB.tasks, r.ID = wUpd.ID →
      UpdateTask wDB none wUpd =
        (Except.ok (applyUpdate wUpd r),
         { wDB with tasks := wDB.tasks.map (fun q => if q.ID == wUpd.ID then applyUpdate wUpd q else q) })) ∧
    ((∀ r ∈ wDB.tasks, r.ID ≠ wUpd.ID) → (UpdateTask wDB none wUpd).1 = Except.error Err.noRows) ∧
    (∀ m, (UpdateTask wDB (some m) wUpd).1 = Except.error (Err.store m)) :=
  UpdateTask_spec wDB ⟨by decide, by decide, by decide⟩ wUpd

/-- C3: on an existing id, `UpdateTask` leaves the row's `id`, `opened` and
`authorID` unchanged while the returned task carries the new values of the
four written fields, and the only row rewritten in the store is the matching
one; on a nonexistent id no row is altered at all. -/
theorem UpdateTask_frame (s : Storage) (h : s.WF) (t : Task) :
    (∀ r ∈ s.tasks, r.ID = t.ID →
      ∃ u, (UpdateTask s none t).1 = Except.ok u ∧
        u.ID = r.ID ∧ u.Opened = r.Opened ∧ u.AuthorID = r.AuthorID ∧
        u.AssignedID = t.AssignedID ∧ u.Closed = t.Closed ∧ u.Title = t.Title ∧
        u.Content = t.Content ∧
        (UpdateTask s none t).2.tasks = s.tasks.map (fun q => if q.ID == t.ID then u else q)) ∧
    ((∀ r ∈ s.tasks, r.ID ≠ t.ID) → (UpdateTask s none t).2 = s) := by
  constructor
  · intro r hr hid
    have hf := filter_eq_single_of_sorted h.1 hr hid
    refine ⟨applyUpdate t r, ?_, rfl, rfl, rfl, rfl, rfl, rfl, rfl, ?_⟩
    · simp only [UpdateTask, hf, List.map_cons, List.map_nil]
    · simp only [UpdateTask, hf, List.map_cons, List.map_nil]
      apply List.map_congr_left
      intro q hq
      by_cases hcase : (q.ID == t.ID) = true
      · have hqid : q.ID = r.ID := by
          have h3 : q.ID = t.ID := by simpa using hcase
          rw [h3, hid]
        have hq2 : q = r := mem_id_unique h.1 hr hq hqid
        simp [hcase, hq2]
      · simp [hcase]
  · intro hnone
    have hf := filter_id_eq_nil hnone
    simp only [UpdateTask, hf, List.map_nil]
    show ({ s with tasks := s.tasks.map (fun q => if q.ID == t.ID then applyUpdate t q else q) } : Storage) = s
    rw [map_update_id hnone]

/-- C3 witness: the claim theorem applied at a concrete database and update
payload. -/
theorem UpdateTask_frame_witness :
    (∀ r ∈ wDB.tasks, r.ID = wUpd.ID →
      ∃ u, (UpdateTask wDB none wUpd).1 = Except.ok u ∧
        u.ID = r.ID ∧ u.Opened = r.Opened ∧ u.AuthorID = r.AuthorID ∧
        u.AssignedID = wUpd.AssignedID ∧ u.Closed = wUpd.Closed ∧ u.Title = wUpd.Title ∧
        u.Content = wUpd.Content ∧
        (UpdateTask wDB none wUpd).2.tasks = wDB.tasks.map (fun q => if q.ID == wUpd.ID then u else q)) ∧
    ((∀ r ∈ wDB.tasks, r.ID ≠ wUpd.ID) → (UpdateTask wDB none wUpd).2 = wDB) :=
  UpdateTask_frame wDB ⟨by decide, by decide, by decide⟩ wUpd

lemma Tasks_all (s : Storage) (h : s.WF) :
    Tasks s Fault.healthy 0 0 = (some s.tasks, none) := by
  have hall : s.tasks.filter (tasksWhere 0 0) = s.tasks := by
    rw [List.filter_eq_self]
    intro r hr
    simp [tasksWhere]
  simp only [Tasks]
  rw [h.orderByID_filter, hall, execQuery_healthy tasksSQL_balanced]

lemma TaskByAuthor_healthy (s : Storage) (h : s.WF) (a : Int) :
    TaskByAuthor s Fault.healthy a =
      (some (s.tasks.filter (fun t => t.AuthorID == a)), none) := by
  simp only [TaskByAuthor]
  rw [h.orderByID_filter, execQuery_healthy taskByAuthorSQL_balanced]
  rfl

/-- C4 (code defect): the label query's grouping is unbalanced as written, so
`TaskByLabel` fails at query execution instead of returning the labelled
tasks; concretely, on `wDB` the intended result for label "bug" is
`[wTask1]`, yet the call yields a StoreError and no rows. -/
theorem TaskByLabel_malformed_defect :
    parenBalanced taskByLabelSQL = false ∧
    specTaskByLabelRows wDB "bug" = [wTask1] ∧
    TaskByLabel wDB Fault.healthy "bug" = (none, some malformedStmtErr) := by
  refine ⟨?_, ?_, ?_⟩ <;> decide

/-- C7 counterexample: `TaskByAuthor 0` is not "no author filter" — on a
database whose tasks have authors 1 and 2 it returns the empty list, while
the unfiltered listing `Tasks 0 0` returns both rows. -/
theorem taskByAuthor_zero_counterexample :
    (TaskByAuthor wDB Fault.healthy 0).1 = some [] ∧
    (Tasks wDB Fault.healthy 0 0).1 = some [wTask1, wTask2] ∧
    (TaskByAuthor wDB Fault.healthy 0).1 ≠ (Tasks wDB Fault.healthy 0 0).1 := by
  refine ⟨?_, ?_, ?_⟩ <;> decide

/-- C7 amended: 0 is the no-filter sentinel for both parameters of `Tasks`,
while `TaskByAuthor` applies a strict `author_id` equality filter for every
argument — `TaskByAuthor 0` selects exactly the tasks whose author id is 0
rather than ignoring the author filter. -/
theorem zero_sentinel_amended (s : Storage) (h : s.WF) :
    Tasks s Fault.healthy 0 0 = (some s.tasks, none) ∧
    (∀ a : Int, TaskByAuthor s Fault.healthy a =
      (some (s.tasks.filter (fun t => t.AuthorID == a)), none)) :=
  ⟨Tasks_all s h, fun a => TaskByAuthor_healthy s h a⟩

/-- C7 amended witness: the amended claim applied at a concrete database. -/
theorem zero_sentinel_amended_witness :
    Tasks wDB Fault.healthy 0 0 = (some wDB.tasks, none) ∧
    (∀ a : Int, TaskByAuthor wDB Fault.healthy a =
      (some (wDB.tasks.filter (fun t => t.AuthorID == a)), none)) :=
  zero_sentinel_amended wDB ⟨by decide, by decide, by decide⟩

/-- C8: `TaskByAuthor a` is exactly the subsequence of `Tasks 0 0` whose
elements have author id `a` — every returned task has author id `a`, every
listed task with author id `a` is returned, and the result is ordered by
ascending id. -/
theorem TaskByAuthor_sub_Tasks (s : Storage) (h : s.WF) (a : Int) :
    ∃ l0 l, Tasks s Fault.healthy 0 0 = (some l0, none) ∧
      TaskByAuthor s Fault.healthy a = (some l, none) ∧
      l = l0.filter (fun t => t.AuthorID == a) ∧
      (∀ t ∈ l, t.AuthorID = a) ∧
      (∀ t ∈ l0, t.AuthorID = a → t ∈ l) ∧
      l.Sorted (fun x y => x.ID < y.ID) := by
  refine ⟨s.tasks, s.tasks.filter (fun t => t.AuthorID == a), ?_, ?_, rfl, ?_, ?_, ?_⟩
  · exact Tasks_all s h
  · exact TaskByAuthor_healthy s h a
  · intro t ht
    simpa using (List.mem_filter.mp ht).2
  · intro t ht hta
    exact List.mem_filter.mpr ⟨ht, by simpa using hta⟩
  · exact h.sorted_filter _

/-- C8 witness: the claim theorem applied at a concrete database and author. -/
theorem TaskByAuthor_sub_Tasks_witness :
    ∃ l0 l, Tasks wDB Fault.healthy 0 0 = (some l0, none) ∧
      TaskByAuthor wDB Fault.healthy 2 = (some l, none) ∧
      l = l0.filter (fun t => t.AuthorID == 2) ∧
      (∀ t ∈ l, t.AuthorID = 2) ∧
      (∀ t ∈ l0, t.AuthorID = 2 → t ∈ l) ∧
      l.Sorted (fun x y => x.ID < y.ID) :=
  TaskByAuthor_sub_Tasks wDB ⟨by decide, by decide, by decide⟩ 2

/-- C9: after a successful `NewTask` with title `t.Title` and content
`t.Content` returning id `i`, `Tasks i 0` returns exactly one task whose
title and content are the inputs, whose `closed` is 0 and whose
`assignedID`, `authorID` take their store defaults, `id` and `opened` being
store-generated. -/
theorem NewTask_roundtrip (s : Storage) (h : s.WF) (t : Task) :
    ∃ i s2, NewTask s none t = (Except.ok i, s2) ∧
      Tasks s2 Fault.healthy i 0 =
        (some [{ ID := i, Opened := s.now, Closed := 0, AuthorID := 0, AssignedID := 0,
                 Title := t.Title, Content := t.Content }], none) := by
  refine ⟨s.nextID,
    { s with tasks := s.tasks ++ [insertedTask s t.Title t.Content], nextID := s.nextID + 1 },
    rfl, ?_⟩
  have hfil : (s.tasks ++ [insertedTask s t.Title t.Content]).filter (tasksWhere s.nextID 0) =
      [insertedTask s t.Title t.Content] := by
    rw [List.filter_append]
    have h1 : s.tasks.filter (tasksWhere s.nextID 0) = [] := by
      rw [List.filter_eq_nil_iff]
      intro q hq
      have hlt := h.2.1 q hq
      have hpos := h.2.2
      simp only [tasksWhere, Bool.and_eq_true, Bool.or_eq_true, beq_iff_eq, not_and, not_or]
      intro hcon
      omega
    have h2 : [insertedTask s t.Title t.Content].filter (tasksWhere s.nextID 0) =
        [insertedTask s t.Title t.Content] := by
      simp [tasksWhere, insertedTask]
    rw [h1, h2, List.nil_append]
  show execQuery tasksSQL
      (sqlOrderByID ((s.tasks ++ [insertedTask s t.Title t.Content]).filter (tasksWhere s.nextID 0)))
      Fault.healthy = _
  rw [hfil]
  rw [execQuery_healthy tasksSQL_balanced]
  rfl

/-- C9 witness: the claim theorem applied at a concrete database and inputs. -/
theorem NewTask_roundtrip_witness :
    ∃ i s2, NewTask wDB none wUpd = (Except.ok i, s2) ∧
      Tasks s2 Fault.healthy i 0 =
        (some [{ ID := i, Opened := wDB.now, Closed := 0, AuthorID := 0, AssignedID := 0,
                 Title := wUpd.Title, Content := wUpd.Content }], none) :=
  NewTask_roundtrip wDB ⟨by decide, by decide, by decide⟩ wUpd

/-- C10: when row iteration ends with a deferred `rows.Err()` error, `Tasks`
and `TaskByAuthor` return the accumulated prefix of the result rows together
with that non-nil error; in particular some executions yield both a non-empty
list and an error, so a non-nil error does not imply a nil result. -/
theorem rowsErr_keeps_accumulated_slice (s : Storage) (h : s.WF)
    (taskID authorID a : Int) (n : Nat) (m : String) :
    Tasks s (Fault.rowsErr n m) taskID authorID =
      (some ((s.tasks.filter (tasksWhere taskID authorID)).take n), some (Err.store m)) ∧
    TaskByAuthor s (Fault.rowsErr n m) a =
      (some ((s.tasks.filter (taskByAuthorWhere a)).take n), some (Err.store m)) ∧
    (∃ l e, l ≠ [] ∧ Tasks wDB (Fault.rowsErr 1 "net") 0 0 = (some l, some e)) := by
  refine ⟨?_, ?_, [wTask1], Err.store "net", by decide, by decide⟩
  · simp only [Tasks]
    rw [h.orderByID_filter, execQuery_rowsErr tasksSQL_balanced]
  · simp only [TaskByAuthor]
    rw [h.orderByID_filter, execQuery_rowsErr taskByAuthorSQL_balanced]

/-- C10 witness: the claim theorem applied at a concrete database, filter and
deferred error. -/
theorem rowsErr_keeps_accumulated_slice_witness :
    Tasks wDB (Fault.rowsErr 1 "net loss") 0 0 =
      (some ((wDB.tasks.filter (tasksWhere 0 0)).take 1), some (Err.store "net loss")) ∧
    TaskByAuthor wDB (Fault.rowsErr 1 "net loss") 2 =
      (some ((wDB.tasks.filter (taskByAuthorWhere 2)).take 1), some (Err.store "net loss")) ∧
    (∃ l e, l ≠ [] ∧ Tasks wDB (Fault.rowsErr 1 "net") 0 0 = (some l, some e)) :=
  rowsErr_keeps_accumulated_slice wDB ⟨by decide, by decide, by decide⟩ 0 0 2 1 "net loss"

end TaskStorage
